import Mathlib

/-!
# Webhook receiver (`main.go`): verification and dispatch pipeline

A shallow embedding of `handleWebhook` and `PaymentSucceeded` from `main.go`.

* Side effects (writes to stderr / stdout, `w.WriteHeader`, and the calls made to
  `webhook.ConstructEvent` and to `PaymentSucceeded`) are recorded, in program order,
  in a trace of `Effect`s.
* The state a handler can reach (the package variable `stripe.Key`, the environment,
  the system clock) is a `Process`; `handleWebhook` and `PaymentSucceeded` take the
  process and give it back, so that what they leave unchanged is a theorem.
* A call ends by returning or by a run-time panic (`Result`): `stripe.Event.Data` is
  a pointer, and `PaymentSucceeded` dereferences it.
* The Stripe SDK verifier `webhook.ConstructEvent` and `json.Unmarshal` into a
  `stripe.PaymentIntent` are external: they are fields of `Runtime`. The verifier
  compares the timestamp of the signature with the system clock, so it also receives
  the clock reading.
* `http.MaxBytesReader` and `io.ReadAll` belong to the Go standard library, not to
  the repository; they are modelled operationally (one `Read` call at a time) over an
  abstract request body, in agreement with section 4.1 of the specification.
* `main` only sets `stripe.Key`, registers `handleWebhook` and starts the server; the
  server is modelled by `serve`, which runs `handleWebhook` on each request and
  carries on with the process state the handler left.
-/

namespace StripeWebhook

/-! ## Data model -/

/-- Go `byte`. -/
abbrev byte := UInt8

/-- Go `error` values that occur in the program. -/
inductive GoError where
  /-- The sentinel `io.EOF`. -/
  | EOF
  /-- An `*http.MaxBytesError` with its `Limit`. -/
  | MaxBytesError (Limit : Nat)
  /-- Any other error, with its message. -/
  | New (msg : String)
deriving DecidableEq, Repr

/-- The method `Error()` of an error (what `%v` prints). -/
def GoError.Error : GoError → String
  | .EOF => "EOF"
  | .MaxBytesError _ => "http: request body too large"
  | .New msg => msg

/-- The field `Data` of `stripe.Event`: `Raw` is the undecoded `json.RawMessage`. -/
structure EventData where
  Raw : List byte
deriving DecidableEq, Repr

/-- A `stripe.Event`, restricted to the fields the program reads (`Type_` stands for
the Go field `Type`). `Data` is a pointer `*EventData`: `none` is the `nil` the
decoder leaves when the signed body has no `data` member. -/
structure Event where
  Type_ : String
  Data : Option EventData
deriving DecidableEq, Repr

/-- How a call of a Go function ends: it returns a value, or a run-time panic (here a
nil pointer dereference) unwinds it. -/
inductive Result (α : Type) where
  | returned (value : α)
  | panicked
deriving DecidableEq, Repr

/-- A `stripe.PaymentIntent`, restricted to the field the program reads. -/
structure PaymentIntent where
  ID : String
deriving DecidableEq, Repr

/-- The observable actions of the program, in the order they happen. -/
inductive Effect where
  /-- `fmt.Fprintf(os.Stderr, ...)` with the formatted text. -/
  | Stderr (s : String)
  /-- `fmt.Printf(...)` with the formatted text. -/
  | Stdout (s : String)
  /-- `w.WriteHeader(statusCode)`. -/
  | WriteHeader (statusCode : Nat)
  /-- `requestTooLarge()` called on the response writer by the `MaxBytesReader`. -/
  | requestTooLarge
  /-- A call `webhook.ConstructEvent(payload, header, secret)`. -/
  | ConstructEvent (payload : List byte) (header : String) (secret : String)
  /-- A call `PaymentSucceeded(e)`. -/
  | PaymentSucceeded (e : Event)
deriving DecidableEq, Repr

/-- The external functions the program calls. -/
structure Runtime where
  /-- `webhook.ConstructEvent(payload, header, secret)` called when the system clock
  reads `now`: an event or an error. -/
  ConstructEvent : (now : Nat) → List byte → String → String → Except GoError Event
  /-- `json.Unmarshal(raw, &pi)` for `pi : stripe.PaymentIntent`. -/
  Unmarshal : List byte → Except GoError PaymentIntent
  /-- The capacity `append` chooses when `io.ReadAll` outgrows a buffer of the given
  capacity (the Go runtime decides it; `io.ReadAll` only needs one more slot). -/
  growCap : Nat → Nat

/-- `http.StatusOK`. -/
def StatusOK : Nat := 200
/-- `http.StatusBadRequest`. -/
def StatusBadRequest : Nat := 400
/-- `http.StatusServiceUnavailable`. -/
def StatusServiceUnavailable : Nat := 503

/-- The constant `MaxBodyBytes` of `handleWebhook`. -/
def MaxBodyBytes : Nat := 65536

/-! ## The process -/

/-- The state of the process a handler can read or write: the package variable
`stripe.Key`, the environment and the reading of the system clock. -/
structure Process where
  Key : String
  environ : String → String
  now : Nat

/-- `os.Getenv(key)`: the value of the variable, `""` when it is not set; the process
is left as it was. -/
def Getenv (key : String) (p : Process) : String × Process :=
  (p.environ key, p)

/-! ## The request -/

/-- Modelled from the spec: the request body stream (`req.Body`, an `io.ReadCloser`
supplied by `net/http`, absent from the repository). `data` are the bytes still to be
delivered, `final` is the error reported once they are all delivered (`io.EOF` for a
complete body, anything else for a truncated stream or an I/O error), and one `Read`
call delivers at most `chunk + 1` bytes. -/
structure Body where
  data : List byte
  final : GoError
  chunk : Nat
deriving DecidableEq, Repr

/-- Modelled from the spec: one call `Read(p)` with `len(p) = len` on the request body
(`net/http`, absent from the repository): the bytes stored into `p`, the error returned
and the body afterwards. -/
def Body.Read (r : Body) (len : Nat) : List byte × Option GoError × Body :=
  match r.data with
  | [] => ([], some r.final, r)
  | _ :: _ =>
    let k := min len (r.chunk + 1)
    (r.data.take k, none, { r with data := r.data.drop k })

/-- An `http.Header`: canonical header names with their values. -/
abbrev Header := List (String × List String)

/-- `Header.Get(key)` for a key in canonical form: the first value stored under the
key, or `""` when there is none. -/
def Header.Get (h : Header) (key : String) : String :=
  match h.lookup key with
  | some (v :: _) => v
  | _ => ""

/-- An `*http.Request`, restricted to what `handleWebhook` reads. -/
structure Request where
  Body : Body
  Header : Header
deriving DecidableEq, Repr

/-! ## `http.MaxBytesReader` and `io.ReadAll` -/

/-- Modelled from the spec: the state of the reader `http.MaxBytesReader` returns
(`net/http`, absent from the repository): the wrapped reader `r`, the limit `i`, the
number `n` of bytes still allowed and the sticky error `err`. -/
structure maxBytesReader where
  r : Body
  i : Nat
  n : Nat
  err : Option GoError
deriving DecidableEq, Repr

/-- Modelled from the spec: `http.MaxBytesReader(w, r, n)` (`net/http`, absent from the
repository), the reader that enforces the ceiling of `n` bytes on `r`. -/
def MaxBytesReader (r : Body) (n : Nat) : maxBytesReader :=
  { r := r, i := n, n := n, err := none }

/-- Modelled from the spec: one call `Read(p)` with `len(p) = len` on a
`maxBytesReader` (`net/http`, absent from the repository): the bytes stored, the error
returned, the reader afterwards and the effects on the response writer. A pending
error is returned again; otherwise at most `n + 1` bytes are asked of the wrapped
reader, and if it delivers more than `n` the stream fails with the over-limit error,
after `requestTooLarge()` on the response writer. -/
def maxBytesReader.Read (l : maxBytesReader) (len : Nat) :
    (List byte × Option GoError) × maxBytesReader × List Effect :=
  match l.err with
  | some e => (([], some e), l, [])
  | none =>
    if len = 0 then (([], none), l, [])
    else
      let len := if len - 1 > l.n then l.n + 1 else len
      let (p, err, r) := l.r.Read len
      if p.length ≤ l.n then
        ((p, err), { l with r := r, n := l.n - p.length, err := err }, [])
      else
        let e := GoError.MaxBytesError l.i
        ((p.take l.n, some e), { l with r := r, n := 0, err := some e },
          [Effect.requestTooLarge])

/-- Modelled from the spec: the loop of `io.ReadAll(r)` (Go standard library, absent
from the repository) with buffer `b` of capacity `cap`: read into the free part of the
buffer, return on an error (`io.EOF` becomes `nil`), grow the buffer when it is full.
`fuel` bounds the number of iterations, `none` means the bound was reached. -/
def ReadAll.loop (rt : Runtime) :
    Nat → maxBytesReader → List byte → Nat → Option ((List byte × Option GoError) × List Effect)
  | 0, _, _, _ => none
  | fuel + 1, r, b, cap =>
    match r.Read (cap - b.length) with
    | ((p, some err), _, eff) =>
      some ((b ++ p, if err = GoError.EOF then none else some err), eff)
    | ((p, none), r, eff) =>
      let b := b ++ p
      let cap := if b.length = cap then max (cap + 1) (rt.growCap cap) else cap
      (ReadAll.loop rt fuel r b cap).map fun (res, rest) => (res, eff ++ rest)

/-- Modelled from the spec: `io.ReadAll(r)` (Go standard library, absent from the
repository) for `r` a `maxBytesReader`: the loop starts with an empty buffer of
capacity 512; each iteration that does not return consumes at least one byte of the
body, so one iteration more than the body has bytes is enough. -/
def ReadAll (rt : Runtime) (r : maxBytesReader) :
    Option ((List byte × Option GoError) × List Effect) :=
  ReadAll.loop rt (r.r.data.length + 1) r [] 512


/-! ## The handlers -/

/-- `PaymentSucceeded(e)` (main.go 79-88): the effects, how the call ends (with the
error returned, `none` for `nil`) and the process afterwards. Evaluating `e.Data.Raw`
on a `nil` `e.Data` panics before anything is printed. -/
def PaymentSucceeded (rt : Runtime) (e : Event) (p : Process) :
    (List Effect × Result (Option GoError)) × Process :=
  match e.Data with
  | none => (([], Result.panicked), p)
  | some data =>
    match rt.Unmarshal data.Raw with
    | .error err =>
      (([Effect.Stderr ("Error parsing webhook JSON: " ++ err.Error ++ "\n")],
        Result.returned (some err)), p)
    | .ok pi =>
      (([Effect.Stdout ("PaymentIntent was successful! ID: " ++ pi.ID ++ "\n")],
        Result.returned none), p)

/-- The `switch event.Type` of `handleWebhook` (main.go 65-70): the effects, the value
of `err` after it when it completes (`err` is `nil` when the switch is reached) and
the process afterwards. -/
def dispatch (rt : Runtime) (event : Event) (p : Process) :
    (List Effect × Result (Option GoError)) × Process :=
  if event.Type_ = "payment_intent.succeeded" then
    match PaymentSucceeded rt event p with
    | ((t, r), p) => ((Effect.PaymentSucceeded event :: t, r), p)
  else
    (([Effect.Stderr ("Unhandled event type: " ++ event.Type_ ++ "\n")],
      Result.returned none), p)

/-- The `if err != nil` after the switch (main.go 72-74). -/
def logHandlerError : Option GoError → List Effect
  | some e => [Effect.Stderr ("Some error in handler finder: " ++ e.Error ++ "\n")]
  | none => []

/-- `handleWebhook(w, req)` (main.go 41-76) run in process `p`: the trace of effects,
how the call ends and the process afterwards; `none` if the body read did not
finish. -/
def handleWebhook (rt : Runtime) (req : Request) (p : Process) :
    Option ((List Effect × Result Unit) × Process) :=
  match ReadAll rt (MaxBytesReader req.Body MaxBodyBytes) with
  | none => none
  | some ((_, some err), eff) =>
    some ((eff ++ [Effect.Stderr ("Error reading request body: " ++ err.Error ++ "\n"),
      Effect.WriteHeader StatusServiceUnavailable], Result.returned ()), p)
  | some ((payload, none), eff) =>
    match Getenv "STRIPE_WEBHOOK_SECRET" p with
    | (endpointSecret, p) =>
      let header := req.Header.Get "Stripe-Signature"
      let called := eff ++ [Effect.ConstructEvent payload header endpointSecret]
      match rt.ConstructEvent p.now payload header endpointSecret with
      | .error err =>
        some ((called ++
          [Effect.Stderr ("Error verifying webhook signature: " ++ err.Error ++ "\n"),
           Effect.WriteHeader StatusBadRequest], Result.returned ()), p)
      | .ok event =>
        match dispatch rt event p with
        | ((t, Result.panicked), p) => some ((called ++ t, Result.panicked), p)
        | ((t, Result.returned err), p) =>
          some ((called ++ t ++ logHandlerError err ++ [Effect.WriteHeader StatusOK],
            Result.returned ()), p)

/-! ## Observations on a trace -/

/-- The status codes written with `w.WriteHeader`, in order. -/
def statuses : List Effect → List Nat
  | [] => []
  | Effect.WriteHeader c :: t => c :: statuses t
  | _ :: t => statuses t

/-- The arguments of the calls to `webhook.ConstructEvent`, in order. -/
def verifierCalls : List Effect → List (List byte × String × String)
  | [] => []
  | Effect.ConstructEvent payload header secret :: t =>
    (payload, header, secret) :: verifierCalls t
  | _ :: t => verifierCalls t

/-- The arguments of the calls to `PaymentSucceeded`, in order. -/
def handlerCalls : List Effect → List Event
  | [] => []
  | Effect.PaymentSucceeded e :: t => e :: handlerCalls t
  | _ :: t => handlerCalls t

/-- The texts written to standard output, in order. -/
def stdoutLines : List Effect → List String
  | [] => []
  | Effect.Stdout s :: t => s :: stdoutLines t
  | _ :: t => stdoutLines t

/-- The texts written to standard error, in order. -/
def stderrLines : List Effect → List String
  | [] => []
  | Effect.Stderr s :: t => s :: stderrLines t
  | _ :: t => stderrLines t

/-- The result of the bounded body read of `handleWebhook`:
`io.ReadAll(http.MaxBytesReader(w, req.Body, MaxBodyBytes))`. -/
def readBody (rt : Runtime) (req : Request) :
    Option ((List byte × Option GoError) × List Effect) :=
  ReadAll rt (MaxBytesReader req.Body MaxBodyBytes)

/-! ## The server -/

/-- The start of `main` (main.go 33-39) in a process with the given environment and
clock: `stripe.Key` is set from the environment; the handler is then registered and
the server started. -/
def main (environ : String → String) (now : Nat) : Process :=
  { Key := environ "STRIPE_ACCOUNT_SECRET", environ := environ, now := now }

/-- The environment after `key` is set to `value`. -/
def Setenv (environ : String → String) (key value : String) : String → String :=
  fun k => if k = key then value else environ k

/-- What happens to the running process: its environment is changed, time passes, or
a request arrives on `/webhook`. -/
inductive Input where
  | Setenv (key value : String)
  | Sleep (seconds : Nat)
  | Request (req : Request)

/-- The server loop on a sequence of inputs: the trace and the ending of
`handleWebhook` for each request, in order. The next input finds the process as the
handler left it; after a panic of the handler `net/http` recovers, sends no response
and goes on serving. -/
def serve (rt : Runtime) : Process → List Input → List (Option (List Effect × Result Unit))
  | _, [] => []
  | p, Input.Setenv key value :: rest =>
    serve rt { p with environ := Setenv p.environ key value } rest
  | p, Input.Sleep seconds :: rest => serve rt { p with now := p.now + seconds } rest
  | p, Input.Request req :: rest =>
    match handleWebhook rt req p with
    | none => [none]
    | some (out, p) => some out :: serve rt p rest

/-- The environment once the changes among the inputs have happened. -/
def environAfter (environ : String → String) : List Input → String → String
  | [] => environ
  | Input.Setenv key value :: rest => environAfter (Setenv environ key value) rest
  | Input.Sleep _ :: rest => environAfter environ rest
  | Input.Request _ :: rest => environAfter environ rest

/-- The clock once the time among the inputs has passed. -/
def clockAfter (now : Nat) : List Input → Nat
  | [] => now
  | Input.Setenv _ _ :: rest => clockAfter now rest
  | Input.Sleep seconds :: rest => clockAfter (now + seconds) rest
  | Input.Request _ :: rest => clockAfter now rest

/-- The process once the changes of environment and the time among the inputs have
happened, requests left aside. -/
def processAfter (p : Process) (ins : List Input) : Process :=
  { Key := p.Key, environ := environAfter p.environ ins, now := clockAfter p.now ins }

/-! ## Sample inputs -/

/-- A sample verifier and decoder. The signature must be `"v1=" ++ secret` and is
accepted until the clock reads 300. The first byte of the payload selects the event:
1 the handled type, 3 a variant in other case, 4 a variant with a trailing blank, 5 the
empty type, 6 the handled type without `data`, 7 `charge.refunded` without `data`,
anything else `charge.refunded`; the rest of the payload is `Data.Raw`. A `Raw` that
starts with byte 123 decodes to the intent `pi_12345`. -/
def sampleRuntime : Runtime where
  ConstructEvent := fun now payload header secret =>
    if header = "v1=" ++ secret then
      if now ≤ 300 then
        match payload with
        | 1 :: raw => .ok { Type_ := "payment_intent.succeeded", Data := some { Raw := raw } }
        | 3 :: raw => .ok { Type_ := "Payment_Intent.Succeeded", Data := some { Raw := raw } }
        | 4 :: raw => .ok { Type_ := "payment_intent.succeeded ", Data := some { Raw := raw } }
        | 5 :: raw => .ok { Type_ := "", Data := some { Raw := raw } }
        | 6 :: _ => .ok { Type_ := "payment_intent.succeeded", Data := none }
        | 7 :: _ => .ok { Type_ := "charge.refunded", Data := none }
        | _ :: raw => .ok { Type_ := "charge.refunded", Data := some { Raw := raw } }
        | [] => .error (GoError.New "unexpected end of JSON input")
      else .error (GoError.New "timestamp outside tolerance")
    else .error (GoError.New "webhook had no valid signature")
  Unmarshal := fun raw =>
    match raw with
    | 123 :: _ => .ok { ID := "pi_12345" }
    | _ => .error (GoError.New "json: cannot unmarshal")
  growCap := fun c => 2 * c

/-- A sample environment. -/
def sampleEnviron : String → String :=
  fun k => if k = "STRIPE_WEBHOOK_SECRET" then "whsec_a" else ""

/-- The sample process: `main` started in the sample environment at clock 0. -/
def sampleProcess : Process := main sampleEnviron 0

/-- A request with the given body bytes, delivered two at a time, and signature. -/
def sampleRequest (data : List byte) (sig : String) : Request :=
  { Body := { data := data, final := GoError.EOF, chunk := 1 },
    Header := [("Content-Type", ["application/json"]), ("Stripe-Signature", [sig])] }

/-! ## The bounded body read -/

/-- A `Read` on a body with no bytes left reports the final error. -/
theorem Body.Read_nil (r : Body) (len : Nat) (h : r.data = []) :
    r.Read len = ([], some r.final, r) := by
  simp [Body.Read, h]

/-- A `Read` on a body with bytes left delivers the first `min len (chunk + 1)`. -/
theorem Body.Read_cons (r : Body) (len : Nat) (h : r.data ≠ []) :
    r.Read len = (r.data.take (min len (r.chunk + 1)), none,
      { r with data := r.data.drop (min len (r.chunk + 1)) }) := by
  unfold Body.Read
  cases hd : r.data with
  | nil => exact absurd hd h
  | cons x xs => simp

/-- What the `io.ReadAll` loop returns on a `maxBytesReader` without a pending error:
all the remaining bytes if there are at most `n` of them (with the final error of the
body, `io.EOF` turned into `nil`), and otherwise the first `n` of them with a
`MaxBytesError`, after `requestTooLarge` on the response writer. -/
theorem ReadAll.loop_eq (rt : Runtime) :
    ∀ (fuel : Nat) (l : maxBytesReader) (b : List byte) (cap : Nat),
      l.err = none → b.length < cap → l.r.data.length < fuel →
      ReadAll.loop rt fuel l b cap =
        if l.r.data.length ≤ l.n then
          some ((b ++ l.r.data,
            if l.r.final = GoError.EOF then none else some l.r.final), [])
        else
          some ((b ++ l.r.data.take l.n, some (GoError.MaxBytesError l.i)),
            [Effect.requestTooLarge]) := by
  intro fuel
  induction fuel with
  | zero => intro l b cap _ _ h; omega
  | succ fuel ih =>
    intro l b cap herr hcap hfuel
    have hlen : cap - b.length ≠ 0 := by omega
    by_cases hd : l.r.data = []
    · simp [ReadAll.loop, maxBytesReader.Read, herr, hlen, Body.Read_nil _ _ hd, hd]
    · have hpos : 0 < l.r.data.length := List.length_pos.mpr hd
      simp only [ReadAll.loop, maxBytesReader.Read, herr, hlen, Body.Read_cons _ _ hd]
      have hk : ∀ k : Nat,
          k = min (if cap - b.length - 1 > l.n then l.n + 1 else cap - b.length)
            (l.r.chunk + 1) → 1 ≤ k ∧ k ≤ l.n + 1 ∧ k ≤ cap - b.length := by
        intro k hk
        split at hk <;> omega
      generalize min (if cap - b.length - 1 > l.n then l.n + 1 else cap - b.length)
        (l.r.chunk + 1) = k at hk
      obtain ⟨hk1, hk2, hk3⟩ := hk k rfl
      simp only [if_false]
      by_cases hp : (List.take k l.r.data).length ≤ l.n
      · simp only [hp, if_true]
        have hlt : (List.take k l.r.data).length = min k l.r.data.length := List.length_take _ _
        rw [ih _ _ _ rfl]
        · simp only [List.length_drop]
          have e1 : (l.r.data.length - k ≤ l.n - (List.take k l.r.data).length)
              ↔ l.r.data.length ≤ l.n := by omega
          by_cases hle : l.r.data.length ≤ l.n
          · simp [e1, hle, List.append_assoc, List.take_append_drop]
            omega
          · have hkd : k ≤ l.r.data.length := by omega
            have hkn : k ≤ l.n := by omega
            have e2 : (List.take k l.r.data).length = k := by omega
            have e3 : List.take k l.r.data ++ List.take (l.n - k) (List.drop k l.r.data)
                = List.take l.n l.r.data := by
              have := List.take_add l.r.data k (l.n - k)
              rw [Nat.add_sub_cancel' hkn] at this
              exact this.symm
            simp [e1, hle, e2, List.append_assoc, e3]
            omega
        · simp only [List.length_append]
          split <;> omega
        · simp only [List.length_drop]
          omega
      · simp only [hp, if_false]
        have hlt : (List.take k l.r.data).length = min k l.r.data.length := List.length_take _ _
        have hgt : ¬ l.r.data.length ≤ l.n := by omega
        have e4 : List.take l.n (List.take k l.r.data) = List.take l.n l.r.data := by
          rw [List.take_take]
          congr 1
          omega
        simp [hgt, e4]

/-- The bounded read of `handleWebhook` always returns: the whole body when it has at
most `MaxBodyBytes` bytes (with the final error of the stream, `nil` for `io.EOF`),
and a `MaxBytesError` when it has more. -/
theorem readBody_eq (rt : Runtime) (req : Request) :
    readBody rt req =
      if req.Body.data.length ≤ MaxBodyBytes then
        some ((req.Body.data,
          if req.Body.final = GoError.EOF then none else some req.Body.final), [])
      else
        some ((req.Body.data.take MaxBodyBytes, some (GoError.MaxBytesError MaxBodyBytes)),
          [Effect.requestTooLarge]) := by
  unfold readBody ReadAll
  rw [ReadAll.loop_eq rt _ _ _ _ rfl (by simp) (by simp [MaxBytesReader])]
  simp [MaxBytesReader]

/-- The read fails exactly when the body is too long or its stream ends in an error. -/
theorem readBody_error_iff (rt : Runtime) (req : Request) :
    (∃ b err eff, readBody rt req = some ((b, some err), eff)) ↔
      (MaxBodyBytes < req.Body.data.length ∨ req.Body.final ≠ GoError.EOF) := by
  rw [readBody_eq]
  by_cases hlen : req.Body.data.length ≤ MaxBodyBytes
  · by_cases hfin : req.Body.final = GoError.EOF
    · simp [hlen, hfin]
    · simp [hlen, hfin]
  · simp [hlen]
    omega

/-- The read succeeds exactly when the body has at most `MaxBodyBytes` bytes and its
stream ends with `io.EOF`; the payload is then the body and nothing else happened. -/
theorem readBody_ok_iff (rt : Runtime) (req : Request) (payload : List byte)
    (eff : List Effect) :
    readBody rt req = some ((payload, none), eff) ↔
      (req.Body.data.length ≤ MaxBodyBytes ∧ req.Body.final = GoError.EOF ∧
        payload = req.Body.data ∧ eff = []) := by
  rw [readBody_eq]
  by_cases hlen : req.Body.data.length ≤ MaxBodyBytes
  · by_cases hfin : req.Body.final = GoError.EOF
    · simp [hlen, hfin, eq_comm]
    · simp [hlen, hfin]
  · simp [hlen]

/-! ## The handlers, case by case -/

/-- Observations distribute over the concatenation of traces. -/
theorem statuses_append (a b : List Effect) :
    statuses (a ++ b) = statuses a ++ statuses b := by
  induction a with
  | nil => rfl
  | cons x t ih => cases x <;> simp [statuses, ih]

/-- The verifier calls of a concatenation of traces. -/
theorem verifierCalls_append (a b : List Effect) :
    verifierCalls (a ++ b) = verifierCalls a ++ verifierCalls b := by
  induction a with
  | nil => rfl
  | cons x t ih => cases x <;> simp [verifierCalls, ih]

/-- The handler calls of a concatenation of traces. -/
theorem handlerCalls_append (a b : List Effect) :
    handlerCalls (a ++ b) = handlerCalls a ++ handlerCalls b := by
  induction a with
  | nil => rfl
  | cons x t ih => cases x <;> simp [handlerCalls, ih]

/-- `PaymentSucceeded` gives the process back as it was. -/
theorem PaymentSucceeded_process (rt : Runtime) (e : Event) (p : Process) :
    (PaymentSucceeded rt e p).2 = p := by
  unfold PaymentSucceeded
  split
  · rfl
  · split <;> rfl

/-- The `switch` gives the process back as it was. -/
theorem dispatch_process (rt : Runtime) (event : Event) (p : Process) :
    (dispatch rt event p).2 = p := by
  unfold dispatch
  split
  · exact PaymentSucceeded_process rt event p
  · rfl

/-- The `switch` neither writes a status nor calls the verifier. -/
theorem dispatch_silent (rt : Runtime) (event : Event) (p : Process) :
    statuses (dispatch rt event p).1.1 = [] ∧
      verifierCalls (dispatch rt event p).1.1 = [] := by
  unfold dispatch PaymentSucceeded
  by_cases ht : event.Type_ = "payment_intent.succeeded"
  · cases hd : event.Data with
    | none => simp [ht, statuses, verifierCalls]
    | some data =>
      cases hu : rt.Unmarshal data.Raw <;> simp [ht, hu, statuses, verifierCalls]
  · simp [ht, statuses, verifierCalls]

/-- The `switch` on an event of another type: the default branch. -/
theorem dispatch_of_other_type (rt : Runtime) (event : Event) (p : Process)
    (htype : event.Type_ ≠ "payment_intent.succeeded") :
    dispatch rt event p =
      (([Effect.Stderr ("Unhandled event type: " ++ event.Type_ ++ "\n")],
        Result.returned none), p) := by
  simp [dispatch, htype]

/-- The `switch` on a handled event whose `Data.Raw` decodes. -/
theorem dispatch_of_decoded (rt : Runtime) (event : Event) (p : Process)
    (data : EventData) (pi : PaymentIntent)
    (htype : event.Type_ = "payment_intent.succeeded") (hdata : event.Data = some data)
    (hdec : rt.Unmarshal data.Raw = .ok pi) :
    dispatch rt event p =
      (([Effect.PaymentSucceeded event,
        Effect.Stdout ("PaymentIntent was successful! ID: " ++ pi.ID ++ "\n")],
        Result.returned none), p) := by
  simp [dispatch, PaymentSucceeded, htype, hdata, hdec]

/-- The `switch` on a handled event whose `Data.Raw` does not decode. -/
theorem dispatch_of_undecoded (rt : Runtime) (event : Event) (p : Process)
    (data : EventData) (err : GoError)
    (htype : event.Type_ = "payment_intent.succeeded") (hdata : event.Data = some data)
    (hdec : rt.Unmarshal data.Raw = .error err) :
    dispatch rt event p =
      (([Effect.PaymentSucceeded event,
        Effect.Stderr ("Error parsing webhook JSON: " ++ err.Error ++ "\n")],
        Result.returned (some err)), p) := by
  simp [dispatch, PaymentSucceeded, htype, hdata, hdec]

/-- The `switch` on a handled event without `Data`: the handler panics. -/
theorem dispatch_of_nil_data (rt : Runtime) (event : Event) (p : Process)
    (htype : event.Type_ = "payment_intent.succeeded") (hdata : event.Data = none) :
    dispatch rt event p = (([Effect.PaymentSucceeded event], Result.panicked), p) := by
  simp [dispatch, PaymentSucceeded, htype, hdata]

/-- After a failed read `handleWebhook` logs the error, answers 503 and returns. -/
theorem handleWebhook_of_read_error (rt : Runtime) (req : Request) (p : Process)
    (b : List byte) (err : GoError) (eff : List Effect)
    (h : readBody rt req = some ((b, some err), eff)) :
    handleWebhook rt req p =
      some ((eff ++ [Effect.Stderr ("Error reading request body: " ++ err.Error ++ "\n"),
        Effect.WriteHeader StatusServiceUnavailable], Result.returned ()), p) := by
  unfold readBody at h
  simp [handleWebhook, h]

/-- After a successful read and a verifier error `handleWebhook` logs the error,
answers 400 and returns. -/
theorem handleWebhook_of_verify_error (rt : Runtime) (req : Request) (p : Process)
    (payload : List byte) (eff : List Effect) (err : GoError)
    (h : readBody rt req = some ((payload, none), eff))
    (hv : rt.ConstructEvent p.now payload (req.Header.Get "Stripe-Signature")
      (p.environ "STRIPE_WEBHOOK_SECRET") = .error err) :
    handleWebhook rt req p =
      some ((eff ++ [Effect.ConstructEvent payload (req.Header.Get "Stripe-Signature")
          (p.environ "STRIPE_WEBHOOK_SECRET"),
        Effect.Stderr ("Error verifying webhook signature: " ++ err.Error ++ "\n"),
        Effect.WriteHeader StatusBadRequest], Result.returned ()), p) := by
  unfold readBody at h
  simp [handleWebhook, h, Getenv, hv]

/-- After a successful read, a verified event and a `switch` that completes,
`handleWebhook` logs the error the `switch` left (if any), answers 200 and returns. -/
theorem handleWebhook_of_returned (rt : Runtime) (req : Request) (p q : Process)
    (payload : List byte) (eff : List Effect) (event : Event) (t : List Effect)
    (err : Option GoError)
    (h : readBody rt req = some ((payload, none), eff))
    (hv : rt.ConstructEvent p.now payload (req.Header.Get "Stripe-Signature")
      (p.environ "STRIPE_WEBHOOK_SECRET") = .ok event)
    (hd : dispatch rt event p = ((t, Result.returned err), q)) :
    handleWebhook rt req p =
      some ((eff ++ [Effect.ConstructEvent payload (req.Header.Get "Stripe-Signature")
          (p.environ "STRIPE_WEBHOOK_SECRET")] ++ t ++ logHandlerError err ++
        [Effect.WriteHeader StatusOK], Result.returned ()), q) := by
  unfold readBody at h
  simp [handleWebhook, h, Getenv, hv, hd]

/-- After a successful read and a verified event, a panic in the `switch` ends
`handleWebhook`: nothing more is logged and no status is written. -/
theorem handleWebhook_of_panicked (rt : Runtime) (req : Request) (p q : Process)
    (payload : List byte) (eff : List Effect) (event : Event) (t : List Effect)
    (h : readBody rt req = some ((payload, none), eff))
    (hv : rt.ConstructEvent p.now payload (req.Header.Get "Stripe-Signature")
      (p.environ "STRIPE_WEBHOOK_SECRET") = .ok event)
    (hd : dispatch rt event p = ((t, Result.panicked), q)) :
    handleWebhook rt req p =
      some ((eff ++ [Effect.ConstructEvent payload (req.Header.Get "Stripe-Signature")
          (p.environ "STRIPE_WEBHOOK_SECRET")] ++ t, Result.panicked), q) := by
  unfold readBody at h
  simp [handleWebhook, h, Getenv, hv, hd]

/-- The body read either fails or returns the whole body with no effect. -/
theorem readBody_cases (rt : Runtime) (req : Request) :
    (∃ b err eff, readBody rt req = some ((b, some err), eff)) ∨
      readBody rt req = some ((req.Body.data, none), []) := by
  by_cases hfail : MaxBodyBytes < req.Body.data.length ∨ req.Body.final ≠ GoError.EOF
  · exact Or.inl ((readBody_error_iff rt req).mpr hfail)
  · refine Or.inr ((readBody_ok_iff rt req _ _).mpr ⟨?_, ?_, rfl, rfl⟩)
    · by_contra hlen; exact hfail (Or.inl (by omega))
    · by_contra hne; exact hfail (Or.inr hne)

/-- The model of `handleWebhook` always ends, by a return or by a panic, and gives
the process back as it was. -/
theorem handleWebhook_ends (rt : Runtime) (req : Request) (p : Process) :
    ∃ out, handleWebhook rt req p = some (out, p) := by
  rcases readBody_cases rt req with ⟨b, err, eff, hread⟩ | hread
  · exact ⟨_, handleWebhook_of_read_error rt req p b err eff hread⟩
  · cases hv : rt.ConstructEvent p.now req.Body.data (req.Header.Get "Stripe-Signature")
        (p.environ "STRIPE_WEBHOOK_SECRET") with
    | error err => exact ⟨_, handleWebhook_of_verify_error rt req p _ _ err hread hv⟩
    | ok event =>
      have hq := dispatch_process rt event p
      cases hd : dispatch rt event p with
      | mk o q =>
        rw [hd] at hq
        simp only at hq
        subst hq
        obtain ⟨t, r⟩ := o
        cases r with
        | returned err =>
          exact ⟨_, handleWebhook_of_returned rt req q q _ _ event t err hread hv hd⟩
        | panicked =>
          exact ⟨_, handleWebhook_of_panicked rt req q q _ _ event t hread hv hd⟩

/-- After a failed read `handleWebhook` answers 503 and returns, having called neither
the verifier nor the handler. -/
theorem handleWebhook_read_failure (rt : Runtime) (req : Request) (p : Process)
    (h : ∃ b err eff, readBody rt req = some ((b, some err), eff)) :
    ∃ tr, handleWebhook rt req p = some ((tr, Result.returned ()), p) ∧
      statuses tr = [503] ∧ verifierCalls tr = [] ∧ handlerCalls tr = [] := by
  obtain ⟨b, err, eff, hread⟩ := h
  refine ⟨_, handleWebhook_of_read_error rt req p b err eff hread, ?_⟩
  rw [readBody_eq] at hread
  split at hread
  · simp only [Option.some.injEq, Prod.mk.injEq] at hread
    obtain ⟨_, rfl⟩ := hread
    simp [statuses, verifierCalls, handlerCalls, StatusServiceUnavailable]
  · simp only [Option.some.injEq, Prod.mk.injEq] at hread
    obtain ⟨_, rfl⟩ := hread
    simp [statuses, verifierCalls, handlerCalls, StatusServiceUnavailable]

/-- After a successful read `handleWebhook` calls the verifier exactly once, with the
body, the `Stripe-Signature` value and the `STRIPE_WEBHOOK_SECRET` of the process. -/
theorem handleWebhook_verifierCalls (rt : Runtime) (req : Request) (p : Process)
    (hread : readBody rt req = some ((req.Body.data, none), [])) :
    ∃ tr ex, handleWebhook rt req p = some ((tr, ex), p) ∧
      verifierCalls tr = [(req.Body.data, req.Header.Get "Stripe-Signature",
        p.environ "STRIPE_WEBHOOK_SECRET")] := by
  cases hv : rt.ConstructEvent p.now req.Body.data (req.Header.Get "Stripe-Signature")
      (p.environ "STRIPE_WEBHOOK_SECRET") with
  | error err =>
    refine ⟨_, _, handleWebhook_of_verify_error rt req p _ _ err hread hv, ?_⟩
    simp [verifierCalls]
  | ok event =>
    have hq := dispatch_process rt event p
    have hs := (dispatch_silent rt event p).2
    cases hd : dispatch rt event p with
    | mk o q =>
      rw [hd] at hq hs
      simp only at hq hs
      subst hq
      obtain ⟨t, r⟩ := o
      cases r with
      | returned err =>
        refine ⟨_, _, handleWebhook_of_returned rt req q q _ _ event t err hread hv hd, ?_⟩
        simp only [verifierCalls_append, hs]
        cases err <;> simp [verifierCalls, logHandlerError]
      | panicked =>
        refine ⟨_, _, handleWebhook_of_panicked rt req q q _ _ event t hread hv hd, ?_⟩
        simp only [verifierCalls_append, hs]
        simp [verifierCalls]

/-- Every call `handleWebhook` makes to the verifier carries the value the
environment of the process gives for `STRIPE_WEBHOOK_SECRET` during that request. -/
theorem verifierCalls_secret (rt : Runtime) (req : Request) (p : Process) :
    ∃ tr ex, handleWebhook rt req p = some ((tr, ex), p) ∧
      ∀ c ∈ verifierCalls tr, c.2.2 = p.environ "STRIPE_WEBHOOK_SECRET" := by
  rcases readBody_cases rt req with hfail | hread
  · obtain ⟨tr, htr, _, hv, _⟩ := handleWebhook_read_failure rt req p hfail
    exact ⟨tr, _, htr, by simp [hv]⟩
  · obtain ⟨tr, ex, htr, hv⟩ := handleWebhook_verifierCalls rt req p hread
    exact ⟨tr, ex, htr, by simp [hv]⟩

/-- The trace and the ending of the `switch` do not depend on the process. -/
theorem dispatch_congr (rt : Runtime) (event : Event) (p q : Process) :
    (dispatch rt event p).1 = (dispatch rt event q).1 := by
  unfold dispatch PaymentSucceeded
  by_cases ht : event.Type_ = "payment_intent.succeeded"
  · cases hd : event.Data with
    | none => simp [ht]
    | some data => cases hu : rt.Unmarshal data.Raw <;> simp [ht, hu]
  · simp [ht]

/-- The trace and the ending of `handleWebhook` depend on the process only through
the value of `STRIPE_WEBHOOK_SECRET` and the answer the verifier gives at the clock
reading of the process. -/
theorem handleWebhook_congr (rt : Runtime) (req : Request) (p q : Process)
    (hsecret : q.environ "STRIPE_WEBHOOK_SECRET" = p.environ "STRIPE_WEBHOOK_SECRET")
    (hverdict : rt.ConstructEvent q.now req.Body.data (req.Header.Get "Stripe-Signature")
        (p.environ "STRIPE_WEBHOOK_SECRET") =
      rt.ConstructEvent p.now req.Body.data (req.Header.Get "Stripe-Signature")
        (p.environ "STRIPE_WEBHOOK_SECRET")) :
    (handleWebhook rt req q).map Prod.fst = (handleWebhook rt req p).map Prod.fst := by
  rcases readBody_cases rt req with ⟨b, err, eff, hread⟩ | hread
  · rw [handleWebhook_of_read_error rt req p b err eff hread,
      handleWebhook_of_read_error rt req q b err eff hread]
    rfl
  · cases hv : rt.ConstructEvent p.now req.Body.data (req.Header.Get "Stripe-Signature")
        (p.environ "STRIPE_WEBHOOK_SECRET") with
    | error err =>
      have hvq := hverdict.trans hv
      rw [← hsecret] at hvq
      rw [handleWebhook_of_verify_error rt req p _ _ err hread hv,
        handleWebhook_of_verify_error rt req q _ _ err hread hvq, hsecret]
      rfl
    | ok event =>
      have hvq := hverdict.trans hv
      rw [← hsecret] at hvq
      have hc := dispatch_congr rt event q p
      cases hdp : dispatch rt event p with
      | mk o p2 =>
        cases hdq : dispatch rt event q with
        | mk o2 q2 =>
          rw [hdp, hdq] at hc
          simp only at hc
          subst hc
          obtain ⟨t, r⟩ := o2
          cases r with
          | returned err =>
            rw [handleWebhook_of_returned rt req p p2 _ _ event t err hread hv hdp,
              handleWebhook_of_returned rt req q q2 _ _ event t err hread hvq hdq, hsecret]
            rfl
          | panicked =>
            rw [handleWebhook_of_panicked rt req p p2 _ _ event t hread hv hdp,
              handleWebhook_of_panicked rt req q q2 _ _ event t hread hvq hdq, hsecret]
            rfl

/-- The process after more inputs. -/
theorem processAfter_cons_Request (p : Process) (req : Request) (ins : List Input) :
    processAfter p (Input.Request req :: ins) = processAfter p ins := rfl

/-- Serving a sequence of inputs in two parts: the second part runs in the process as
the changes of the first part left it (handling a request changes nothing). -/
theorem serve_append (rt : Runtime) (pre post : List Input) :
    ∀ p : Process, serve rt p (pre ++ post) =
      serve rt p pre ++ serve rt (processAfter p pre) post := by
  induction pre with
  | nil => intro p; simp [serve, processAfter, environAfter, clockAfter]
  | cons x t ih =>
    intro p
    cases x with
    | Setenv key value => exact ih { p with environ := Setenv p.environ key value }
    | Sleep seconds => exact ih { p with now := p.now + seconds }
    | Request req =>
      obtain ⟨out, hout⟩ := handleWebhook_ends rt req p
      simp only [List.cons_append, serve, hout]
      exact congrArg (List.cons (some out)) (ih p)

/-- Changes to other variables leave a variable of the environment as it was. -/
theorem environAfter_of_not_set (name : String) (ins : List Input) :
    ∀ environ : String → String,
      (∀ key value, Input.Setenv key value ∈ ins → key ≠ name) →
      environAfter environ ins name = environ name := by
  induction ins with
  | nil => intro environ _; rfl
  | cons x t ih =>
    intro environ h
    have ht : ∀ k v, Input.Setenv k v ∈ t → k ≠ name :=
      fun k v hm => h k v (List.mem_cons_of_mem _ hm)
    cases x with
    | Setenv key value =>
      have hk : key ≠ name := h key value (List.mem_cons_self _ _)
      simp only [environAfter]
      rw [ih _ ht]
      simp [Setenv, Ne.symm hk]
    | Sleep seconds =>
      simp only [environAfter]
      exact ih _ ht
    | Request req =>
      simp only [environAfter]
      exact ih _ ht

/-- After a verified event `handleWebhook` answers 200 and returns, except on an
event of the handled type without `Data`, where the handler panics and no status is
written. -/
theorem statuses_of_verified (rt : Runtime) (req : Request) (p : Process)
    (payload : List byte) (eff : List Effect) (event : Event)
    (hread : readBody rt req = some ((payload, none), eff))
    (hver : rt.ConstructEvent p.now payload (req.Header.Get "Stripe-Signature")
      (p.environ "STRIPE_WEBHOOK_SECRET") = .ok event) :
    ∃ tr ex, handleWebhook rt req p = some ((tr, ex), p) ∧
      if event.Type_ = "payment_intent.succeeded" ∧ event.Data = none then
        statuses tr = [] ∧ ex = Result.panicked
      else statuses tr = [200] ∧ ex = Result.returned () := by
  obtain ⟨_, _, _, rfl⟩ := (readBody_ok_iff rt req payload eff).mp hread
  by_cases htype : event.Type_ = "payment_intent.succeeded"
  · cases hdata : event.Data with
    | none =>
      refine ⟨_, _, handleWebhook_of_panicked rt req p p _ _ event _ hread hver
        (dispatch_of_nil_data rt event p htype hdata), ?_⟩
      simp [htype, statuses]
    | some data =>
      cases hdec : rt.Unmarshal data.Raw with
      | error err =>
        refine ⟨_, _, handleWebhook_of_returned rt req p p _ _ event _ _ hread hver
          (dispatch_of_undecoded rt event p data err htype hdata hdec), ?_⟩
        simp [statuses, logHandlerError, StatusOK]
      | ok pi =>
        refine ⟨_, _, handleWebhook_of_returned rt req p p _ _ event _ _ hread hver
          (dispatch_of_decoded rt event p data pi htype hdata hdec), ?_⟩
        simp [statuses, logHandlerError, StatusOK]
  · refine ⟨_, _, handleWebhook_of_returned rt req p p _ _ event _ _ hread hver
      (dispatch_of_other_type rt event p htype), ?_⟩
    simp [htype, statuses, logHandlerError, StatusOK]

/-! ## Properties of `handleWebhook` -/

/-- C1: when the body is read successfully and `webhook.ConstructEvent` returns an
error, `handleWebhook` returns having written status 400 once, `PaymentSucceeded` is
not called, and nothing (so no `PaymentIntent was successful` record) is printed to
standard output. -/
theorem verifier_error_responds_400 (rt : Runtime) (req : Request) (p : Process)
    (payload : List byte) (eff : List Effect) (err : GoError)
    (hread : readBody rt req = some ((payload, none), eff))
    (hver : rt.ConstructEvent p.now payload (req.Header.Get "Stripe-Signature")
      (p.environ "STRIPE_WEBHOOK_SECRET") = .error err) :
    ∃ tr, handleWebhook rt req p = some ((tr, Result.returned ()), p) ∧
      statuses tr = [400] ∧ handlerCalls tr = [] ∧ stdoutLines tr = [] := by
  refine ⟨_, handleWebhook_of_verify_error rt req p payload eff err hread hver, ?_⟩
  obtain ⟨_, _, _, rfl⟩ := (readBody_ok_iff rt req payload eff).mp hread
  simp [statuses, handlerCalls, stdoutLines, StatusBadRequest]

/-- C2: when the body has more than 65536 bytes, or the body read fails for any
reason, `handleWebhook` returns having written status 503 once, without calling
`webhook.ConstructEvent` and without calling `PaymentSucceeded`. -/
theorem read_failure_responds_503 (rt : Runtime) (req : Request) (p : Process)
    (h : 65536 < req.Body.data.length ∨
      ∃ b err eff, readBody rt req = some ((b, some err), eff)) :
    ∃ tr, handleWebhook rt req p = some ((tr, Result.returned ()), p) ∧
      statuses tr = [503] ∧ verifierCalls tr = [] ∧ handlerCalls tr = [] := by
  apply handleWebhook_read_failure
  rcases h with h | h
  · exact (readBody_error_iff rt req).mpr (Or.inl h)
  · exact h

/-- C3 (the code departs from the claim): the sample request `[6, 1]` is read
successfully and the verifier returns an event for it, of the handled type and
without `Data`; `handleWebhook` calls `PaymentSucceeded`, which panics on
`e.Data.Raw`, and no status is written, neither 200 nor any other. The request
`[7, 1]`, whose event differs in its type only, is answered 200. -/
theorem no_status_for_event_without_data :
    readBody sampleRuntime (sampleRequest [6, 1] "v1=whsec_a") = some (([6, 1], none), []) ∧
    sampleRuntime.ConstructEvent sampleProcess.now [6, 1] "v1=whsec_a" "whsec_a" =
      .ok { Type_ := "payment_intent.succeeded", Data := none } ∧
    (handleWebhook sampleRuntime (sampleRequest [6, 1] "v1=whsec_a") sampleProcess).map
        (fun out => (statuses out.1.1, out.1.2)) = some ([], Result.panicked) ∧
    sampleRuntime.ConstructEvent sampleProcess.now [7, 1] "v1=whsec_a" "whsec_a" =
      .ok { Type_ := "charge.refunded", Data := none } ∧
    (handleWebhook sampleRuntime (sampleRequest [7, 1] "v1=whsec_a") sampleProcess).map
        (fun out => (statuses out.1.1, out.1.2)) = some ([200], Result.returned ()) :=
  ⟨by decide, rfl, by decide, rfl, by decide⟩

/-- C4: for a readable body of at most 65536 bytes, the bounded read returns exactly
the bytes of the body, `handleWebhook` calls the verifier exactly once, with that
payload and with the value `Header.Get` finds under `Stripe-Signature`: the first
stored value, and the empty string when the header is absent. -/
theorem verifier_receives_body_and_signature (rt : Runtime) (req : Request) (p : Process)
    (hlen : req.Body.data.length ≤ 65536) (hread : req.Body.final = GoError.EOF) :
    ∃ tr ex, handleWebhook rt req p = some ((tr, ex), p) ∧
      readBody rt req = some ((req.Body.data, none), []) ∧
      verifierCalls tr = [(req.Body.data, req.Header.Get "Stripe-Signature",
        p.environ "STRIPE_WEBHOOK_SECRET")] ∧
      (∀ v vs, req.Header.lookup "Stripe-Signature" = some (v :: vs) →
        req.Header.Get "Stripe-Signature" = v) ∧
      (req.Header.lookup "Stripe-Signature" = none →
        req.Header.Get "Stripe-Signature" = "") := by
  have hok : readBody rt req = some ((req.Body.data, none), []) :=
    (readBody_ok_iff rt req _ _).mpr ⟨hlen, hread, rfl, rfl⟩
  obtain ⟨tr, ex, htr, hcalls⟩ := handleWebhook_verifierCalls rt req p hok
  refine ⟨tr, ex, htr, hok, hcalls, ?_, ?_⟩
  · intro v vs h
    simp [Header.Get, h]
  · intro h
    simp [Header.Get, h]

/-- C5 (the code departs from the claim): when the verifier returns an event of type
`payment_intent.succeeded` without `Data`, `handleWebhook` calls `PaymentSucceeded`
with it, the call panics on `e.Data.Raw`, and `handleWebhook` ends there, unwound by
the panic: nothing is printed and no status is written, so `WriteHeader(200)` is never
reached. -/
theorem verified_event_without_data_panics (rt : Runtime) (req : Request) (p : Process)
    (payload : List byte) (eff : List Effect) (event : Event)
    (hread : readBody rt req = some ((payload, none), eff))
    (hver : rt.ConstructEvent p.now payload (req.Header.Get "Stripe-Signature")
      (p.environ "STRIPE_WEBHOOK_SECRET") = .ok event)
    (htype : event.Type_ = "payment_intent.succeeded")
    (hdata : event.Data = none) :
    ∃ tr, handleWebhook rt req p = some ((tr, Result.panicked), p) ∧
      handlerCalls tr = [event] ∧
      (PaymentSucceeded rt event p).1 = ([], Result.panicked) ∧
      stdoutLines tr = [] ∧ stderrLines tr = [] ∧
      statuses tr = [] := by
  refine ⟨_, handleWebhook_of_panicked rt req p p payload eff event _ hread hver
    (dispatch_of_nil_data rt event p htype hdata), ?_⟩
  obtain ⟨_, _, _, rfl⟩ := (readBody_ok_iff rt req payload eff).mp hread
  simp [PaymentSucceeded, hdata, handlerCalls, stdoutLines, stderrLines, statuses]

/-- C6: for a verified event of type `payment_intent.succeeded` whose `Data.Raw`
decodes into a payment intent with identifier `id`, `PaymentSucceeded` is called
exactly once, with that event, and returns `nil`; standard output receives exactly the
record `PaymentIntent was successful! ID: <id>`; nothing is written to standard error
(no handler-error line); the status is 200 and `handleWebhook` returns. -/
theorem payment_succeeded_dispatch (rt : Runtime) (req : Request) (p : Process)
    (payload : List byte) (eff : List Effect) (event : Event) (data : EventData)
    (pi : PaymentIntent)
    (hread : readBody rt req = some ((payload, none), eff))
    (hver : rt.ConstructEvent p.now payload (req.Header.Get "Stripe-Signature")
      (p.environ "STRIPE_WEBHOOK_SECRET") = .ok event)
    (htype : event.Type_ = "payment_intent.succeeded")
    (hdata : event.Data = some data)
    (hdec : rt.Unmarshal data.Raw = .ok pi) :
    ∃ tr, handleWebhook rt req p = some ((tr, Result.returned ()), p) ∧
      handlerCalls tr = [event] ∧
      (PaymentSucceeded rt event p).1.2 = Result.returned none ∧
      stdoutLines tr = ["PaymentIntent was successful! ID: " ++ pi.ID ++ "\n"] ∧
      stderrLines tr = [] ∧
      statuses tr = [200] := by
  refine ⟨_, handleWebhook_of_returned rt req p p payload eff event _ _ hread hver
    (dispatch_of_decoded rt event p data pi htype hdata hdec), ?_⟩
  obtain ⟨_, _, _, rfl⟩ := (readBody_ok_iff rt req payload eff).mp hread
  simp [PaymentSucceeded, hdata, hdec, handlerCalls, stdoutLines, stderrLines,
    statuses, logHandlerError, StatusOK]

/-- C7: for a verified event whose type is any string other than
`payment_intent.succeeded`, `PaymentSucceeded` is not called, standard error receives
exactly one line, `Unhandled event type: <type>` (so no handler-error line), and the
status is 200; `handleWebhook` returns. -/
theorem unhandled_event_type (rt : Runtime) (req : Request) (p : Process)
    (payload : List byte) (eff : List Effect) (event : Event)
    (hread : readBody rt req = some ((payload, none), eff))
    (hver : rt.ConstructEvent p.now payload (req.Header.Get "Stripe-Signature")
      (p.environ "STRIPE_WEBHOOK_SECRET") = .ok event)
    (htype : event.Type_ ≠ "payment_intent.succeeded") :
    ∃ tr, handleWebhook rt req p = some ((tr, Result.returned ()), p) ∧
      handlerCalls tr = [] ∧
      stderrLines tr = ["Unhandled event type: " ++ event.Type_ ++ "\n"] ∧
      stdoutLines tr = [] ∧
      statuses tr = [200] := by
  refine ⟨_, handleWebhook_of_returned rt req p p payload eff event _ _ hread hver
    (dispatch_of_other_type rt event p htype), ?_⟩
  obtain ⟨_, _, _, rfl⟩ := (readBody_ok_iff rt req payload eff).mp hread
  simp [handlerCalls, stdoutLines, stderrLines, statuses, logHandlerError, StatusOK]

/-- C8: for a verified event of type `payment_intent.succeeded` whose `Data.Raw`
fails to decode, `PaymentSucceeded` (called once) returns the decode error and prints
no record to standard output, `handleWebhook` logs the returned error on standard
error (after the line `PaymentSucceeded` logged itself), writes status 200 and
returns. -/
theorem decode_failure_logged (rt : Runtime) (req : Request) (p : Process)
    (payload : List byte) (eff : List Effect) (event : Event) (data : EventData)
    (err : GoError)
    (hread : readBody rt req = some ((payload, none), eff))
    (hver : rt.ConstructEvent p.now payload (req.Header.Get "Stripe-Signature")
      (p.environ "STRIPE_WEBHOOK_SECRET") = .ok event)
    (htype : event.Type_ = "payment_intent.succeeded")
    (hdata : event.Data = some data)
    (hdec : rt.Unmarshal data.Raw = .error err) :
    ∃ tr, handleWebhook rt req p = some ((tr, Result.returned ()), p) ∧
      handlerCalls tr = [event] ∧
      (PaymentSucceeded rt event p).1.2 = Result.returned (some err) ∧
      stdoutLines (PaymentSucceeded rt event p).1.1 = [] ∧
      stdoutLines tr = [] ∧
      stderrLines tr = ["Error parsing webhook JSON: " ++ err.Error ++ "\n",
        "Some error in handler finder: " ++ err.Error ++ "\n"] ∧
      statuses tr = [200] := by
  refine ⟨_, handleWebhook_of_returned rt req p p payload eff event _ _ hread hver
    (dispatch_of_undecoded rt event p data err htype hdata hdec), ?_⟩
  obtain ⟨_, _, _, rfl⟩ := (readBody_ok_iff rt req payload eff).mp hread
  simp [PaymentSucceeded, hdata, hdec, handlerCalls, stdoutLines, stderrLines,
    statuses, logHandlerError, StatusOK]

/-! ## The process: secret and replay -/

/-- C9 (as stated, refuted): the process starts with `STRIPE_WEBHOOK_SECRET=whsec_a`;
the variable is then set to `whsec_b` and a request arrives. The verifier is called
with `whsec_b`, not with the value read at startup. -/
theorem secret_fixed_at_startup_counterexample :
    ¬ (∀ out, some out ∈ serve sampleRuntime (main sampleEnviron 0)
          [Input.Setenv "STRIPE_WEBHOOK_SECRET" "whsec_b",
           Input.Request (sampleRequest [2, 7] "v1=whsec_b")] →
        ∀ c ∈ verifierCalls out.1, c.2.2 = sampleEnviron "STRIPE_WEBHOOK_SECRET") := by
  intro h
  have hc := h ([Effect.ConstructEvent [2, 7] "v1=whsec_b" "whsec_b",
      Effect.Stderr "Unhandled event type: charge.refunded\n", Effect.WriteHeader 200],
      Result.returned ())
    (by decide) ([2, 7], "v1=whsec_b", "whsec_b") (by decide)
  revert hc
  decide

/-- C9 (amended): for a request that arrives after any sequence `pre` of inputs, the
server answers with `handleWebhook` run in the process as `pre` left it, and every
call to the verifier in that run carries the value `STRIPE_WEBHOOK_SECRET` has in
that environment; when no input of `pre` sets `STRIPE_WEBHOOK_SECRET`, this is the
value the variable had at startup. -/
theorem verifier_receives_current_secret (rt : Runtime) (environ : String → String)
    (now : Nat) (pre : List Input) (req : Request) (post : List Input) :
    ∃ tr ex,
      handleWebhook rt req (processAfter (main environ now) pre) =
        some ((tr, ex), processAfter (main environ now) pre) ∧
      serve rt (main environ now) (pre ++ Input.Request req :: post) =
        serve rt (main environ now) pre ++ some (tr, ex) ::
          serve rt (processAfter (main environ now) pre) post ∧
      (∀ c ∈ verifierCalls tr, c.2.2 = environAfter environ pre "STRIPE_WEBHOOK_SECRET") ∧
      ((∀ key value, Input.Setenv key value ∈ pre → key ≠ "STRIPE_WEBHOOK_SECRET") →
        ∀ c ∈ verifierCalls tr, c.2.2 = environ "STRIPE_WEBHOOK_SECRET") := by
  obtain ⟨tr, ex, htr, hsec⟩ :=
    verifierCalls_secret rt req (processAfter (main environ now) pre)
  refine ⟨tr, ex, htr, ?_, hsec, ?_⟩
  · rw [serve_append]
    simp only [serve, htr]
  · intro hpre c hc
    rw [hsec c hc]
    exact environAfter_of_not_set _ pre environ hpre

/-- C10: a request handled twice in succession, `seconds` apart, by a process whose
environment is not changed in between and with a verifier that answers it the same at
both clock readings: handling leaves the process as it was, both handlings give the
same trace and ending (same status, same calls, same records), and the second gives
what it gives when the first never happened. -/
theorem replay_is_stateless (rt : Runtime) (p : Process) (req : Request) (seconds : Nat)
    (hfixed : rt.ConstructEvent (p.now + seconds) req.Body.data
        (req.Header.Get "Stripe-Signature") (p.environ "STRIPE_WEBHOOK_SECRET") =
      rt.ConstructEvent p.now req.Body.data
        (req.Header.Get "Stripe-Signature") (p.environ "STRIPE_WEBHOOK_SECRET")) :
    ∃ out, handleWebhook rt req p = some (out, p) ∧
      serve rt p [Input.Request req, Input.Sleep seconds, Input.Request req] =
        [some out, some out] ∧
      serve rt p [Input.Sleep seconds, Input.Request req] = [some out] ∧
      serve rt p [Input.Request req, Input.Request req] = [some out, some out] ∧
      serve rt p [Input.Request req] = [some out] := by
  obtain ⟨out, hout⟩ := handleWebhook_ends rt req p
  obtain ⟨out2, hout2⟩ := handleWebhook_ends rt req { p with now := p.now + seconds }
  have hsame := handleWebhook_congr rt req p { p with now := p.now + seconds } rfl hfixed
  rw [hout, hout2] at hsame
  simp only [Option.map_some', Option.some.injEq] at hsame
  subst hsame
  refine ⟨out2, hout, ?_, ?_, ?_, ?_⟩
  · simp [serve, hout, hout2]
  · simp [serve, hout2]
  · simp [serve, hout]
  · simp [serve, hout]

/-! ## The properties at sample requests -/

/-- C1 at a request whose signature the sample verifier rejects. -/
theorem verifier_error_responds_400_witness :
    readBody sampleRuntime (sampleRequest [2, 12, 2] "v1=wrong") =
      some (([2, 12, 2], none), []) ∧
    ∃ tr, handleWebhook sampleRuntime (sampleRequest [2, 12, 2] "v1=wrong") sampleProcess
        = some ((tr, Result.returned ()), sampleProcess) ∧
      statuses tr = [400] ∧ handlerCalls tr = [] ∧ stdoutLines tr = [] :=
  ⟨by decide,
   verifier_error_responds_400 sampleRuntime (sampleRequest [2, 12, 2] "v1=wrong")
    sampleProcess [2, 12, 2] [] (GoError.New "webhook had no valid signature")
    (by decide) rfl⟩

/-- C2 at a body of 65537 bytes and at a short body whose stream breaks. -/
theorem read_failure_responds_503_witness :
    (∃ tr, handleWebhook sampleRuntime
        (sampleRequest (List.replicate 65537 0) "v1=whsec_a") sampleProcess =
          some ((tr, Result.returned ()), sampleProcess) ∧
      statuses tr = [503] ∧ verifierCalls tr = [] ∧ handlerCalls tr = []) ∧
    (∃ tr, handleWebhook sampleRuntime
        { Body := { data := [1, 123], final := GoError.New "unexpected EOF", chunk := 0 },
          Header := [("Stripe-Signature", ["v1=whsec_a"])] } sampleProcess =
          some ((tr, Result.returned ()), sampleProcess) ∧
      statuses tr = [503] ∧ verifierCalls tr = [] ∧ handlerCalls tr = []) :=
  ⟨read_failure_responds_503 sampleRuntime
      (sampleRequest (List.replicate 65537 0) "v1=whsec_a") sampleProcess
      (Or.inl (by
        show 65536 < (List.replicate 65537 (0 : byte)).length
        rw [List.length_replicate]
        decide)),
   read_failure_responds_503 sampleRuntime
      { Body := { data := [1, 123], final := GoError.New "unexpected EOF", chunk := 0 },
        Header := [("Stripe-Signature", ["v1=whsec_a"])] } sampleProcess
      (Or.inr ⟨[1, 123], GoError.New "unexpected EOF", [], by decide⟩)⟩

/-- C4 at a body of exactly 65536 bytes. -/
theorem verifier_receives_body_and_signature_witness :
    ∃ tr ex, handleWebhook sampleRuntime
        (sampleRequest (List.replicate 65536 0) "v1=whsec_a") sampleProcess =
          some ((tr, ex), sampleProcess) ∧
      readBody sampleRuntime (sampleRequest (List.replicate 65536 0) "v1=whsec_a") =
        some ((List.replicate 65536 0, none), []) ∧
      verifierCalls tr = [(List.replicate 65536 0, "v1=whsec_a", "whsec_a")] :=
  match verifier_receives_body_and_signature sampleRuntime
      (sampleRequest (List.replicate 65536 0) "v1=whsec_a") sampleProcess
      (by
        show (List.replicate 65536 (0 : byte)).length ≤ 65536
        rw [List.length_replicate]) rfl with
  | ⟨tr, ex, h1, h2, h3, _⟩ => ⟨tr, ex, h1, h2, h3⟩

/-- C5 at the sample request `[6]`, for which the sample verifier returns an event of
the handled type without `Data`: the trace ends with the handler call. -/
theorem verified_event_without_data_panics_witness :
    sampleRuntime.ConstructEvent sampleProcess.now [6] "v1=whsec_a" "whsec_a" =
      .ok { Type_ := "payment_intent.succeeded", Data := none } ∧
    handleWebhook sampleRuntime (sampleRequest [6] "v1=whsec_a") sampleProcess =
      some (([Effect.ConstructEvent [6] "v1=whsec_a" "whsec_a",
        Effect.PaymentSucceeded { Type_ := "payment_intent.succeeded", Data := none }],
        Result.panicked), sampleProcess) ∧
    ∃ tr, handleWebhook sampleRuntime (sampleRequest [6] "v1=whsec_a") sampleProcess =
        some ((tr, Result.panicked), sampleProcess) ∧
      handlerCalls tr = [{ Type_ := "payment_intent.succeeded", Data := none }] ∧
      (PaymentSucceeded sampleRuntime
        { Type_ := "payment_intent.succeeded", Data := none } sampleProcess).1 =
          ([], Result.panicked) ∧
      stdoutLines tr = [] ∧ stderrLines tr = [] ∧ statuses tr = [] :=
  ⟨rfl, rfl,
   verified_event_without_data_panics sampleRuntime (sampleRequest [6] "v1=whsec_a")
    sampleProcess [6] [] { Type_ := "payment_intent.succeeded", Data := none }
    (by decide) rfl rfl rfl⟩

/-- C6 at a verified `payment_intent.succeeded` event for the intent `pi_12345`. -/
theorem payment_succeeded_dispatch_witness :
    ∃ tr, handleWebhook sampleRuntime (sampleRequest [1, 123, 125] "v1=whsec_a")
        sampleProcess = some ((tr, Result.returned ()), sampleProcess) ∧
      handlerCalls tr =
        [{ Type_ := "payment_intent.succeeded", Data := some { Raw := [123, 125] } }] ∧
      (PaymentSucceeded sampleRuntime
        { Type_ := "payment_intent.succeeded", Data := some { Raw := [123, 125] } }
        sampleProcess).1.2 = Result.returned none ∧
      stdoutLines tr = ["PaymentIntent was successful! ID: pi_12345\n"] ∧
      stderrLines tr = [] ∧ statuses tr = [200] :=
  payment_succeeded_dispatch sampleRuntime (sampleRequest [1, 123, 125] "v1=whsec_a")
    sampleProcess [1, 123, 125] []
    { Type_ := "payment_intent.succeeded", Data := some { Raw := [123, 125] } }
    { Raw := [123, 125] } { ID := "pi_12345" } (by decide) rfl rfl rfl rfl

/-- C7 at verified events of type `charge.refunded` (with and without `Data`), of the
handled type in other case, of the handled type followed by a blank, and of the empty
type. -/
theorem unhandled_event_type_witness :
    (∃ tr, handleWebhook sampleRuntime (sampleRequest [2, 7] "v1=whsec_a") sampleProcess
        = some ((tr, Result.returned ()), sampleProcess) ∧
      handlerCalls tr = [] ∧
      stderrLines tr = ["Unhandled event type: charge.refunded\n"] ∧
      stdoutLines tr = [] ∧ statuses tr = [200]) ∧
    (∃ tr, handleWebhook sampleRuntime (sampleRequest [7, 7] "v1=whsec_a") sampleProcess
        = some ((tr, Result.returned ()), sampleProcess) ∧
      handlerCalls tr = [] ∧
      stderrLines tr = ["Unhandled event type: charge.refunded\n"] ∧
      stdoutLines tr = [] ∧ statuses tr = [200]) ∧
    (∃ tr, handleWebhook sampleRuntime (sampleRequest [3, 123] "v1=whsec_a") sampleProcess
        = some ((tr, Result.returned ()), sampleProcess) ∧
      handlerCalls tr = [] ∧
      stderrLines tr = ["Unhandled event type: Payment_Intent.Succeeded\n"] ∧
      stdoutLines tr = [] ∧ statuses tr = [200]) ∧
    (∃ tr, handleWebhook sampleRuntime (sampleRequest [4, 123] "v1=whsec_a") sampleProcess
        = some ((tr, Result.returned ()), sampleProcess) ∧
      handlerCalls tr = [] ∧
      stderrLines tr = ["Unhandled event type: payment_intent.succeeded \n"] ∧
      stdoutLines tr = [] ∧ statuses tr = [200]) ∧
    (∃ tr, handleWebhook sampleRuntime (sampleRequest [5, 123] "v1=whsec_a") sampleProcess
        = some ((tr, Result.returned ()), sampleProcess) ∧
      handlerCalls tr = [] ∧
      stderrLines tr = ["Unhandled event type: \n"] ∧
      stdoutLines tr = [] ∧ statuses tr = [200]) :=
  ⟨unhandled_event_type sampleRuntime (sampleRequest [2, 7] "v1=whsec_a") sampleProcess
      [2, 7] [] { Type_ := "charge.refunded", Data := some { Raw := [7] } } (by decide) rfl
      (by decide),
   unhandled_event_type sampleRuntime (sampleRequest [7, 7] "v1=whsec_a") sampleProcess
      [7, 7] [] { Type_ := "charge.refunded", Data := none } (by decide) rfl (by decide),
   unhandled_event_type sampleRuntime (sampleRequest [3, 123] "v1=whsec_a") sampleProcess
      [3, 123] [] { Type_ := "Payment_Intent.Succeeded", Data := some { Raw := [123] } }
      (by decide) rfl (by decide),
   unhandled_event_type sampleRuntime (sampleRequest [4, 123] "v1=whsec_a") sampleProcess
      [4, 123] [] { Type_ := "payment_intent.succeeded ", Data := some { Raw := [123] } }
      (by decide) rfl (by decide),
   unhandled_event_type sampleRuntime (sampleRequest [5, 123] "v1=whsec_a") sampleProcess
      [5, 123] [] { Type_ := "", Data := some { Raw := [123] } } (by decide) rfl
      (by decide)⟩

/-- C8 at a verified `payment_intent.succeeded` event whose `Data.Raw` does not
decode. -/
theorem decode_failure_logged_witness :
    ∃ tr, handleWebhook sampleRuntime (sampleRequest [1, 34] "v1=whsec_a") sampleProcess
        = some ((tr, Result.returned ()), sampleProcess) ∧
      handlerCalls tr =
        [{ Type_ := "payment_intent.succeeded", Data := some { Raw := [34] } }] ∧
      (PaymentSucceeded sampleRuntime
        { Type_ := "payment_intent.succeeded", Data := some { Raw := [34] } }
        sampleProcess).1.2 = Result.returned (some (GoError.New "json: cannot unmarshal")) ∧
      stdoutLines (PaymentSucceeded sampleRuntime
        { Type_ := "payment_intent.succeeded", Data := some { Raw := [34] } }
        sampleProcess).1.1 = [] ∧
      stdoutLines tr = [] ∧
      stderrLines tr = ["Error parsing webhook JSON: json: cannot unmarshal\n",
        "Some error in handler finder: json: cannot unmarshal\n"] ∧
      statuses tr = [200] :=
  decode_failure_logged sampleRuntime (sampleRequest [1, 34] "v1=whsec_a") sampleProcess
    [1, 34] [] { Type_ := "payment_intent.succeeded", Data := some { Raw := [34] } }
    { Raw := [34] } (GoError.New "json: cannot unmarshal") (by decide) rfl rfl rfl rfl

/-- C10 at a verified sample request replayed 60 seconds later, within the tolerance of
the sample verifier. -/
theorem replay_is_stateless_witness :
    sampleRuntime.ConstructEvent (sampleProcess.now + 60) [1, 123, 125] "v1=whsec_a"
        "whsec_a" =
      sampleRuntime.ConstructEvent sampleProcess.now [1, 123, 125] "v1=whsec_a" "whsec_a" ∧
    ∃ out, handleWebhook sampleRuntime (sampleRequest [1, 123, 125] "v1=whsec_a")
        sampleProcess = some (out, sampleProcess) ∧
      serve sampleRuntime sampleProcess
        [Input.Request (sampleRequest [1, 123, 125] "v1=whsec_a"), Input.Sleep 60,
         Input.Request (sampleRequest [1, 123, 125] "v1=whsec_a")] = [some out, some out] ∧
      serve sampleRuntime sampleProcess
        [Input.Sleep 60, Input.Request (sampleRequest [1, 123, 125] "v1=whsec_a")] =
          [some out] ∧
      serve sampleRuntime sampleProcess
        [Input.Request (sampleRequest [1, 123, 125] "v1=whsec_a"),
         Input.Request (sampleRequest [1, 123, 125] "v1=whsec_a")] = [some out, some out] ∧
      serve sampleRuntime sampleProcess
        [Input.Request (sampleRequest [1, 123, 125] "v1=whsec_a")] = [some out] :=
  ⟨rfl, replay_is_stateless sampleRuntime sampleProcess
    (sampleRequest [1, 123, 125] "v1=whsec_a") 60 rfl⟩

end StripeWebhook
